import Mathlib

/-!
Verification of the worker-node registration and channel-provisioning
protocol of `IPython/zmq/parallel/engine.py` (class `Engine`), via a
shallow embedding of its methods `register`, `complete_registration`
and `unregister`.

The embedding records every externally observable action (socket
creation, identity tagging, connects, message sends, heartbeat and
kernel start, sleep, process exit) in an event trace, and threads the
mutable attributes of the `Engine` object through an explicit state.
Python exceptions are modelled by an `Option PyError` result carried
alongside the state reached at the point of the raise (Python retains
all mutations made before an exception propagates).

The `StreamSession` / `Message` classes are not part of the sources;
following the spec, attribute access on an absent optional address
field of a response is modelled as yielding a falsy value (`none`),
and an unparseable response frame is modelled as the `Except.error`
case of the incoming message.
-/

namespace EngineProof

/-- A value carried in a wire message content dictionary: the engine sends
both string-valued entries (identities) and integer-valued entries (the
unregistration id). -/
inductive WireVal where
  | s (v : String)
  | i (v : Int)
deriving DecidableEq, Repr

/-- Externally observable actions performed by the engine, in program order. -/
inductive Event where
  /-- models `self.registrar.on_recv(self.complete_registration)` -/
  | onRecvInstalled
  /-- models `self.session.send(self.registrar, msgType, content=...)` -/
  | sendMsg (msgType : String) (content : List (String × WireVal))
  /-- models `self.context.socket(...)` for the named role -/
  | socketCreate (role : String)
  /-- models `socket.setsockopt(zmq.IDENTITY, self.ident)` -/
  | setIdentity (role : String) (ident : String)
  /-- models `socket.connect(str(addr))` -/
  | connect (role : String) (addr : String)
  /-- models `heartmonitor.Heart(*map(str, hbs), heart_id=self.ident)` -/
  | heartCreate (addrs : List String) (heartId : String)
  /-- models `self.heart.start()` -/
  | heartStart
  /-- models `kernel.Kernel(...)` -/
  | kernelCreate
  /-- models `self.kernel.start()` -/
  | kernelStart
  /-- models `time.sleep(secs)` -/
  | sleep (secs : Nat)
  /-- models `sys.exit(code)` -/
  | exitProcess (code : Nat)
deriving DecidableEq, Repr

/-- Python exceptions that the embedded code can raise. -/
inductive PyError where
  /-- models `raise Exception("Registration Failed: ...")` for a non-ok status -/
  | registrationFailed (status : String)
  /-- reading an instance attribute that was never assigned -/
  | attributeError (name : String)
  /-- models `socket.connect` raising on a bad address -/
  | zmqError (addr : String)
  /-- models `feed_identities` / `unpack_message` failing on a garbled frame -/
  | unpackError
  /-- models `int(s)` raising on a non-integer string -/
  | valueError (s : String)
deriving DecidableEq, Repr

/-- The content of a parsed registration response, as read by
`complete_registration` through `msg.content`.  `status` and `id` are
guaranteed present on an ok response; each channel address is optional
(`none` = field absent) and may also be present but empty.  `heartbeat`
is the list of heartbeat addresses. -/
structure Content where
  status : String
  id : String
  queue : Option String
  control : Option String
  task : Option String
  heartbeat : List String
deriving DecidableEq, Repr

/-- The mutable attributes of an `Engine` instance that the registration
life-cycle touches.  `none` for `queue`/`control`/`task_stream` means the
instance attribute was never assigned (the class declares no default for
these three), so reading it raises `AttributeError`. -/
structure EngineState where
  /-- the `self.session.username` attribute, assigned from the response id -/
  username : Option String
  /-- the `self.queue` attribute: address of the connected queue stream -/
  queue : Option String
  /-- the `self.control` attribute: address of the connected control stream -/
  control : Option String
  /-- the `self.task_stream` attribute: address of the connected task stream -/
  task_stream : Option String
  /-- the `self.heart` attribute: heartbeat addresses and heart id -/
  heart : Option (List String × String)
  heartStarted : Bool
  kernelCreated : Bool
  kernelStarted : Bool
deriving DecidableEq, Repr

/-- A freshly constructed `Engine`: no username assigned by registration,
no channel attributes assigned, no heart, no kernel. -/
def initEngine : EngineState :=
  { username := none, queue := none, control := none, task_stream := none,
    heart := none, heartStarted := false,
    kernelCreated := false, kernelStarted := false }

/-- Python truthiness of an optional address: an absent field or an empty
string is falsy, a non-empty string is truthy. -/
def truthy : Option String → Bool
  | none => false
  | some a => !a.isEmpty

/-- Models `register(self)`: installs `complete_registration` as the receive
callback on the registrar stream, then sends a `registration_request`
whose content maps `queue`, `heartbeat` and `control` to this worker's
identity.  The method consults and mutates no other state, so it is a
pure function of the identity. -/
def register (ident : String) : List Event :=
  [ Event.onRecvInstalled,
    Event.sendMsg "registration_request"
      [("queue", WireVal.s ident), ("heartbeat", WireVal.s ident),
       ("control", WireVal.s ident)] ]

/-- Two calls of `register()` on the same engine before any response:
the method is unguarded, so the calls simply compose. -/
def registerTwice (ident : String) : List Event :=
  register ident ++ register ident

/-- Intermediate state-and-trace pair while executing a method body. -/
structure Step where
  state : EngineState
  trace : List Event
deriving Repr

/-- One channel-provisioning block of `complete_registration`:
```
addr = msg.content.<role>
if addr:
    sock = self.context.socket(zmq.PAIR)
    sock.setsockopt(zmq.IDENTITY, self.ident)
    sock.connect(str(addr))
    self.<attr> = zmqstream.ZMQStream(sock, self.loop)
```
`connectFails` models whether `connect` raises on the given address.
Returns the updated step and the exception, if one was raised. -/
def provision (connectFails : String → Bool) (role : String) (ident : String)
    (addr : Option String) (assign : EngineState → String → EngineState)
    (st : Step) : Step × Option PyError :=
  match addr with
  | none => (st, none)
  | some a =>
    if a.isEmpty then (st, none)
    else
      let tr := st.trace ++
        [Event.socketCreate role, Event.setIdentity role ident,
         Event.connect role a]
      if connectFails a then
        ({ st with trace := tr }, some (PyError.zmqError a))
      else
        ({ state := assign st.state a, trace := tr }, none)

/-- Result of running `complete_registration`: the engine state at exit
(or at the point an exception propagated), the trace of observable
actions, and the exception, if one was raised. -/
structure CRResult where
  state : EngineState
  trace : List Event
  error : Option PyError
deriving Repr

/-- The three consecutive provisioning blocks of `complete_registration`,
for the queue, control and task addresses in program order; the first
exception raised aborts the rest. -/
def provisionChannels (connectFails : String → Bool) (ident : String)
    (c : Content) (st : Step) : Step × Option PyError :=
  match provision connectFails "queue" ident c.queue
      (fun s a => { s with queue := some a }) st with
  | (st, some e) => (st, some e)
  | (st, none) =>
  match provision connectFails "control" ident c.control
      (fun s a => { s with control := some a }) st with
  | (st, some e) => (st, some e)
  | (st, none) =>
    provision connectFails "task" ident c.task
      (fun s a => { s with task_stream := some a }) st

/-- The tail of the ok-branch of `complete_registration`:
`kernel.Kernel(self.session, self.control, self.queue, pub,
self.task_stream, self.client)` evaluates its arguments left to right,
raising `AttributeError` for the first of `self.control`, `self.queue`,
`self.task_stream` that was never assigned; then `self.kernel.start()`. -/
def startKernel (s5 : EngineState) (tr5 : List Event) : CRResult :=
  match s5.control with
  | none => ⟨s5, tr5, some (PyError.attributeError "control")⟩
  | some _ =>
  match s5.queue with
  | none => ⟨s5, tr5, some (PyError.attributeError "queue")⟩
  | some _ =>
  match s5.task_stream with
  | none => ⟨s5, tr5, some (PyError.attributeError "task_stream")⟩
  | some _ =>
    ⟨{ s5 with kernelCreated := true, kernelStarted := true },
     tr5 ++ [Event.kernelCreate, Event.kernelStart], none⟩

/-- Models `complete_registration(self, msg)`: feed identities and unpack the
frame (an unparseable frame raises before anything else happens); on
`status == 'ok'` assign `self.session.username = str(msg.content.id)`,
provision the queue, control and task channels for each truthy address,
construct and start the heart from the heartbeat addresses, create the
placeholder pub socket, then construct and start the kernel (see
`startKernel`).  On `status != 'ok'` raise
`Exception("Registration Failed: ...")`. -/
def complete_registration (connectFails : String → Bool) (ident : String)
    (s0 : EngineState) (msg : Except Unit Content) : CRResult :=
  match msg with
  | Except.error _ => ⟨s0, [], some PyError.unpackError⟩
  | Except.ok c =>
    if c.status = "ok" then
      match provisionChannels connectFails ident c
          ⟨{ s0 with username := some c.id }, []⟩ with
      | (st, some e) => ⟨st.state, st.trace, some e⟩
      | (st, none) =>
        startKernel
          { st.state with heart := some (c.heartbeat, ident),
                          heartStarted := true }
          (st.trace ++
            [Event.heartCreate c.heartbeat ident, Event.heartStart,
             Event.socketCreate "pub"])
    else
      ⟨s0, [], some (PyError.registrationFailed c.status)⟩

/-- ASCII whitespace, as stripped by Python's `int()` before parsing. -/
def isSpaceChar (c : Char) : Bool :=
  c = ' ' || c = '\t' || c = '\n' || c = '\r' || c = '\x0b' || c = '\x0c'

/-- Python's `int()` on a list of characters: optional surrounding
whitespace, an optional sign, then one or more decimal digits; anything
else raises `ValueError` (modelled as `none`). -/
def pyIntChars (cs : List Char) : Option Int :=
  let t := ((cs.dropWhile isSpaceChar).reverse.dropWhile isSpaceChar).reverse
  let sd : Int × List Char :=
    match t with
    | '-' :: rest => (-1, rest)
    | '+' :: rest => (1, rest)
    | _ => (1, t)
  if sd.2.isEmpty || !sd.2.all Char.isDigit then none
  else some (sd.1 * (sd.2.foldl (fun a ch => a * 10 + (ch.toNat - 48)) (0 : Nat) : Nat))

/-- Python's `int(s)` on a string. -/
def pyInt (s : String) : Option Int := pyIntChars s.data

/-- Models `unregister(self)`: builds `dict(id=int(self.session.username))` —
the `int` conversion happens while building the content, so a
non-integer username raises before anything is sent — then sends it as
an `unregistration_request`, sleeps one second and exits with status 0. -/
def unregister (username : String) : List Event × Option PyError :=
  match pyInt username with
  | none => ([], some (PyError.valueError username))
  | some n =>
    ([ Event.sendMsg "unregistration_request" [("id", WireVal.i n)],
       Event.sleep 1, Event.exitProcess 0 ], none)

/-- Events that belong to queue/control/task channel provisioning. -/
def isProvisionEvent : Event → Bool
  | Event.socketCreate r => r = "queue" || r = "control" || r = "task"
  | Event.setIdentity _ _ => true
  | Event.connect _ _ => true
  | _ => false

/-- Events that open a socket or connect it (a channel beyond the
registrar being brought up). -/
def isChannelOpenEvent : Event → Bool
  | Event.socketCreate _ => true
  | Event.connect _ _ => true
  | _ => false

/-- Is this event the send of a registration request? -/
def isRegRequest : Event → Bool
  | Event.sendMsg t _ => t = "registration_request"
  | _ => false


/-- C8: the registration request sent by `register()` has message type
`"registration_request"` and content mapping `queue`, `heartbeat` and
`control` each to the worker's own identity; it is the only message sent. -/
theorem C8_registration_request_content (ident : String) :
    (register ident).filterMap
        (fun e => match e with
          | Event.sendMsg t c => some (t, c)
          | _ => none) =
      [("registration_request",
        [("queue", WireVal.s ident), ("heartbeat", WireVal.s ident),
         ("control", WireVal.s ident)])] := rfl

/-- C10: `register()` installs the response callback on the registrar
channel strictly before sending the registration request: no message
send precedes the callback installation, and the request is sent
afterwards. -/
theorem C10_callback_installed_before_send (ident : String) :
    ∃ pre post, register ident = pre ++ Event.onRecvInstalled :: post ∧
      pre.all (fun e => !isRegRequest e) = true ∧
      post.any isRegRequest = true :=
  ⟨[], [Event.sendMsg "registration_request"
      [("queue", WireVal.s ident), ("heartbeat", WireVal.s ident),
       ("control", WireVal.s ident)]], rfl, rfl, rfl⟩

/-- C4 counterexample: calling `register()` a second time before a response
has been received does send a second registration request — the method has
no re-entry guard, so two calls on the worker with identity `"engine-1"`
send two `registration_request` messages, not at most one. -/
theorem C4_second_call_sends_second_request :
    (registerTwice "engine-1").countP (fun e => isRegRequest e) = 2 := by decide

/-- C4 amended: `register()` has no re-entry guard; every call
unconditionally sends one registration request, so a second call before a
response sends a second concurrent request (two calls send two requests). -/
theorem C4_amended_each_call_sends (ident : String) :
    (register ident).countP (fun e => isRegRequest e) = 1 ∧
    (registerTwice ident).countP (fun e => isRegRequest e) = 2 := by
  constructor <;> rfl

/-- C7: on a worker whose `session.username` is `"7"`, `unregister()`
sends exactly one message, of type `"unregistration_request"` with content
`id = 7` (the id converted to an integer), then sleeps the fixed one-second
grace interval, then exits the process with status code 0, raising nothing. -/
theorem C7_unregister_seven :
    unregister "7" =
      ([ Event.sendMsg "unregistration_request" [("id", WireVal.i 7)],
         Event.sleep 1, Event.exitProcess 0 ], none) := rfl

/-- C9: if `session.username` is not an integer string, the `int()`
conversion in `unregister()` raises `ValueError` while building the message
content, so no unregistration message is sent and the process does not
exit with status 0. -/
theorem C9_unregister_nonint_username (s : String) (h : pyInt s = none) :
    (unregister s).2 = some (PyError.valueError s) ∧ (unregister s).1 = [] := by
  simp [unregister, h]

/-- C9 witness: the username `"engine-uuid"` (no id ever assigned by a
successful registration) is not an integer string; `unregister` raises and
sends nothing. -/
theorem C9_witness :
    pyInt "engine-uuid" = none ∧
    (unregister "engine-uuid").2 = some (PyError.valueError "engine-uuid") ∧
    (unregister "engine-uuid").1 = [] :=
  ⟨by decide, C9_unregister_nonint_username "engine-uuid" (by decide)⟩


def c1Response : Content :=
  { status := "ok", id := "7", queue := some "tcp://127.0.0.1:10201",
    control := some "tcp://127.0.0.1:10202", task := none,
    heartbeat := ["tcp://127.0.0.1:10203", "tcp://127.0.0.1:10204"] }

/-- C1 failing input: on a status-ok response whose task address is absent,
the queue and control channels are provisioned and the task channel is left
unprovisioned, but the kernel construction then reads the never-assigned
`self.task_stream` attribute and raises `AttributeError`: the Engine does
not reach RUNNING (`kernelStarted = false`). -/
theorem C1_missing_address_raises :
    (complete_registration (fun _ => false) "engine-0" initEngine
        (Except.ok c1Response)).state.queue = some "tcp://127.0.0.1:10201" ∧
    (complete_registration (fun _ => false) "engine-0" initEngine
        (Except.ok c1Response)).state.control = some "tcp://127.0.0.1:10202" ∧
    (complete_registration (fun _ => false) "engine-0" initEngine
        (Except.ok c1Response)).state.task_stream = none ∧
    (complete_registration (fun _ => false) "engine-0" initEngine
        (Except.ok c1Response)).error
      = some (PyError.attributeError "task_stream") ∧
    (complete_registration (fun _ => false) "engine-0" initEngine
        (Except.ok c1Response)).state.kernelStarted = false :=
  ⟨rfl, rfl, rfl, rfl, rfl⟩

/-- C2: a registration response whose interpretation raises (a garbled,
unparseable frame) leads to the same outcome as a status≠ok response: the
exception is fatal, the engine state is unchanged (no partial state), and
the trace is empty (no channel beyond the registrar is opened). -/
theorem C2_interpretation_error_atomic (cf : String → Bool) (ident : String)
    (s0 : EngineState) (c : Content) (hc : c.status ≠ "ok") :
    (complete_registration cf ident s0 (Except.error ())).state = s0 ∧
    (complete_registration cf ident s0 (Except.error ())).trace = [] ∧
    (complete_registration cf ident s0 (Except.error ())).error.isSome = true ∧
    (complete_registration cf ident s0 (Except.ok c)).state = s0 ∧
    (complete_registration cf ident s0 (Except.ok c)).trace = [] ∧
    (complete_registration cf ident s0 (Except.ok c)).error.isSome = true := by
  refine ⟨rfl, rfl, rfl, ?_, ?_, ?_⟩ <;> simp [complete_registration, hc]

/-- C2 witness: a concrete garbled frame and a concrete status-"error"
response received by a fresh engine. -/
theorem C2_witness :
    (complete_registration (fun _ => false) "w" initEngine
        (Except.error ())).state = initEngine ∧
    (complete_registration (fun _ => false) "w" initEngine
        (Except.error ())).trace = [] ∧
    (complete_registration (fun _ => false) "w" initEngine
        (Except.error ())).error.isSome = true ∧
    (complete_registration (fun _ => false) "w" initEngine
        (Except.ok ⟨"error", "x", none, none, none, []⟩)).state = initEngine ∧
    (complete_registration (fun _ => false) "w" initEngine
        (Except.ok ⟨"error", "x", none, none, none, []⟩)).trace = [] ∧
    (complete_registration (fun _ => false) "w" initEngine
        (Except.ok ⟨"error", "x", none, none, none, []⟩)).error.isSome = true :=
  C2_interpretation_error_atomic (fun _ => false) "w" initEngine
    ⟨"error", "x", none, none, none, []⟩ (by decide)

/-- C3: on a response with status ≠ "ok", `complete_registration` raises
the fatal registration-failure exception, performs no socket creation or
connect (zero channels beyond the registrar), and leaves the engine state
unchanged; `register()` itself also opens no channel, so no channel other
than the registrar exists before a status-ok response arrives. -/
theorem C3_non_ok_fatal_no_channels (cf : String → Bool) (ident : String)
    (s0 : EngineState) (c : Content) (hc : c.status ≠ "ok") :
    (complete_registration cf ident s0 (Except.ok c)).error
        = some (PyError.registrationFailed c.status) ∧
    (complete_registration cf ident s0 (Except.ok c)).trace.all
        (fun e => !isChannelOpenEvent e) = true ∧
    (complete_registration cf ident s0 (Except.ok c)).state = s0 ∧
    (register ident).all (fun e => !isChannelOpenEvent e) = true := by
  refine ⟨?_, ?_, ?_, rfl⟩ <;> simp [complete_registration, hc]

/-- C3 witness: a concrete status-"error" response received by a fresh
engine with identity `"engine-2"`. -/
theorem C3_witness :
    (complete_registration (fun _ => false) "engine-2" initEngine
        (Except.ok ⟨"error", "9", some "qa", some "ca", some "ta", ["hb"]⟩)).error
        = some (PyError.registrationFailed "error") ∧
    (complete_registration (fun _ => false) "engine-2" initEngine
        (Except.ok ⟨"error", "9", some "qa", some "ca", some "ta", ["hb"]⟩)).trace.all
        (fun e => !isChannelOpenEvent e) = true ∧
    (complete_registration (fun _ => false) "engine-2" initEngine
        (Except.ok ⟨"error", "9", some "qa", some "ca", some "ta", ["hb"]⟩)).state
        = initEngine ∧
    (register "engine-2").all (fun e => !isChannelOpenEvent e) = true :=
  C3_non_ok_fatal_no_channels (fun _ => false) "engine-2" initEngine
    ⟨"error", "9", some "qa", some "ca", some "ta", ["hb"]⟩ (by decide)

def c6Response : Content :=
  { status := "ok", id := "9", queue := some "bogus",
    control := some "tcp://127.0.0.1:10301",
    task := some "tcp://127.0.0.1:10302",
    heartbeat := ["tcp://127.0.0.1:10303"] }

/-- C6 counterexample: when the queue address is malformed and its connect
raises, the exception propagates out of `complete_registration` at once:
the control and task channels — whose addresses are present and valid —
are never attempted (the trace ends at the failed queue connect), and the
kernel is never started, refuting per-channel isolation. -/
theorem C6_connect_failure_not_isolated :
    (complete_registration (fun a => a = "bogus") "engine-3" initEngine
        (Except.ok c6Response)).error = some (PyError.zmqError "bogus") ∧
    (complete_registration (fun a => a = "bogus") "engine-3" initEngine
        (Except.ok c6Response)).trace =
      [Event.socketCreate "queue", Event.setIdentity "queue" "engine-3",
       Event.connect "queue" "bogus"] ∧
    (complete_registration (fun a => a = "bogus") "engine-3" initEngine
        (Except.ok c6Response)).state.control = none ∧
    (complete_registration (fun a => a = "bogus") "engine-3" initEngine
        (Except.ok c6Response)).state.task_stream = none ∧
    (complete_registration (fun a => a = "bogus") "engine-3" initEngine
        (Except.ok c6Response)).state.kernelStarted = false :=
  ⟨rfl, rfl, rfl, rfl, rfl⟩

/-- C6 amended: provisioning failures are not isolated: if the queue
address is present and non-empty but its connect raises, the exception
aborts `complete_registration` immediately — the control and task channels
are not attempted, the kernel is not started, and the only state retained
is the username assignment. -/
theorem C6_amended_connect_failure_aborts (cf : String → Bool)
    (ident : String) (s0 : EngineState) (c : Content) (a : String)
    (hs : c.status = "ok") (hq : c.queue = some a) (hne : a.isEmpty = false)
    (hcf : cf a = true) :
    (complete_registration cf ident s0 (Except.ok c)).error
        = some (PyError.zmqError a) ∧
    (complete_registration cf ident s0 (Except.ok c)).trace =
      [Event.socketCreate "queue", Event.setIdentity "queue" ident,
       Event.connect "queue" a] ∧
    (complete_registration cf ident s0 (Except.ok c)).state
        = { s0 with username := some c.id } := by
  refine ⟨?_, ?_, ?_⟩ <;>
    simp [complete_registration, provisionChannels, provision, hs, hq, hne, hcf]

/-- C6 amended witness: a concrete status-ok response whose queue address
`"bad addr"` fails to connect while control and task addresses are valid. -/
theorem C6_amended_witness :
    (complete_registration (fun a => a = "bad addr") "engine-4" initEngine
        (Except.ok ⟨"ok", "5", some "bad addr", some "ctl", some "tsk", ["hb"]⟩)).error
        = some (PyError.zmqError "bad addr") ∧
    (complete_registration (fun a => a = "bad addr") "engine-4" initEngine
        (Except.ok ⟨"ok", "5", some "bad addr", some "ctl", some "tsk", ["hb"]⟩)).trace =
      [Event.socketCreate "queue", Event.setIdentity "queue" "engine-4",
       Event.connect "queue" "bad addr"] ∧
    (complete_registration (fun a => a = "bad addr") "engine-4" initEngine
        (Except.ok ⟨"ok", "5", some "bad addr", some "ctl", some "tsk", ["hb"]⟩)).state
        = { initEngine with username := some "5" } :=
  C6_amended_connect_failure_aborts (fun a => a = "bad addr") "engine-4"
    initEngine ⟨"ok", "5", some "bad addr", some "ctl", some "tsk", ["hb"]⟩
    "bad addr" rfl rfl (by decide) (by decide)


/-- Identity tagging is a provisioning event. -/
lemma isProvisionEvent_setIdentity (r i : String) :
    isProvisionEvent (Event.setIdentity r i) = true := rfl

/-- A connect is a provisioning event. -/
lemma isProvisionEvent_connect (r a : String) :
    isProvisionEvent (Event.connect r a) = true := rfl

/-- A provisioning block appends only provisioning events to the trace
(regardless of whether it raises). -/
lemma provision_trace_append (cf : String → Bool) (role ident : String)
    (addr : Option String) (assign : EngineState → String → EngineState)
    (st : Step) (hrole : isProvisionEvent (Event.socketCreate role) = true) :
    ∃ new, (provision cf role ident addr assign st).1.trace = st.trace ++ new ∧
      new.all isProvisionEvent = true := by
  unfold provision
  cases addr with
  | none => exact ⟨[], by simp⟩
  | some a =>
    cases he : a.isEmpty with
    | true => simp [he]
    | false =>
      cases hcf : cf a with
      | true =>
        refine ⟨[Event.socketCreate role, Event.setIdentity role ident,
          Event.connect role a], ?_, ?_⟩ <;>
          simp [he, hcf, hrole, isProvisionEvent_setIdentity,
            isProvisionEvent_connect]
      | false =>
        refine ⟨[Event.socketCreate role, Event.setIdentity role ident,
          Event.connect role a], ?_, ?_⟩ <;>
          simp [he, hcf, hrole, isProvisionEvent_setIdentity,
            isProvisionEvent_connect]

/-- The three provisioning blocks together append only provisioning events
to the trace. -/
lemma provisionChannels_trace_append (cf : String → Bool) (ident : String)
    (c : Content) (st : Step) :
    ∃ new, (provisionChannels cf ident c st).1.trace = st.trace ++ new ∧
      new.all isProvisionEvent = true := by
  unfold provisionChannels
  rcases h1 : provision cf "queue" ident c.queue
      (fun s a => { s with queue := some a }) st with ⟨st1, e1⟩
  obtain ⟨n1, ht1, ha1⟩ := provision_trace_append cf "queue" ident c.queue
      (fun s a => { s with queue := some a }) st (by decide)
  rw [h1] at ht1
  replace ht1 : st1.trace = st.trace ++ n1 := ht1
  cases e1 with
  | some e => exact ⟨n1, ht1, ha1⟩
  | none =>
    rcases h2 : provision cf "control" ident c.control
        (fun s a => { s with control := some a }) st1 with ⟨st2, e2⟩
    obtain ⟨n2, ht2, ha2⟩ := provision_trace_append cf "control" ident c.control
        (fun s a => { s with control := some a }) st1 (by decide)
    rw [h2] at ht2
    replace ht2 : st2.trace = st1.trace ++ n2 := ht2
    cases e2 with
    | some e =>
      refine ⟨n1 ++ n2, ?_, ?_⟩
      · simp only [h2, ht2, ht1, List.append_assoc]
      · simp [List.all_append, ha1, ha2]
    | none =>
      obtain ⟨n3, ht3, ha3⟩ := provision_trace_append cf "task" ident c.task
          (fun s a => { s with task_stream := some a }) st2 (by decide)
      refine ⟨n1 ++ (n2 ++ n3), ?_, ?_⟩
      · simp only [h2, ht3, ht2, ht1, List.append_assoc]
      · simp [List.all_append, ha1, ha2, ha3]

/-- If the kernel-construction tail raises no exception, the kernel
creation and start are appended right after the given trace. -/
lemma startKernel_error_none (s5 : EngineState) (tr5 : List Event)
    (h : (startKernel s5 tr5).error = none) :
    (startKernel s5 tr5).trace = tr5 ++ [Event.kernelCreate, Event.kernelStart] := by
  obtain ⟨u, q, ct, ts, hh, hb, kc, ks⟩ := s5
  cases ct <;> cases q <;> cases ts <;> simp_all [startKernel]

/-- C5: on every successful registration (no exception raised), the trace of
`complete_registration` is a block of channel-provisioning events followed by
the construction of the Heartbeat Monitor from the response's heartbeat
addresses, its start, the placeholder pub socket, and finally the kernel
construction and start: the heart is started strictly after all channel
provisioning (never before it) and the kernel strictly after the heart. -/
theorem C5_heart_after_provisioning_kernel_last (cf : String → Bool)
    (ident : String) (s0 : EngineState) (c : Content)
    (h : (complete_registration cf ident s0 (Except.ok c)).error = none) :
    ∃ pre, (complete_registration cf ident s0 (Except.ok c)).trace =
        pre ++ [Event.heartCreate c.heartbeat ident, Event.heartStart,
                Event.socketCreate "pub", Event.kernelCreate,
                Event.kernelStart] ∧
      pre.all isProvisionEvent = true ∧
      Event.heartStart ∉ pre := by
  by_cases hs : c.status = "ok"
  case neg => simp [complete_registration, hs] at h
  case pos =>
    rcases hpc : provisionChannels cf ident c
        ⟨{ s0 with username := some c.id }, []⟩ with ⟨st, oe⟩
    obtain ⟨new, htr, hall⟩ := provisionChannels_trace_append cf ident c
        ⟨{ s0 with username := some c.id }, []⟩
    rw [hpc] at htr
    replace htr : st.trace = new := by simpa using htr
    cases oe with
    | some e =>
      have hcr : complete_registration cf ident s0 (Except.ok c)
          = ⟨st.state, st.trace, some e⟩ := by
        simp [complete_registration, hs, hpc]
      rw [hcr] at h
      simp at h
    | none =>
      have hcr : complete_registration cf ident s0 (Except.ok c) =
          startKernel
            { st.state with heart := some (c.heartbeat, ident),
                            heartStarted := true }
            (st.trace ++
              [Event.heartCreate c.heartbeat ident, Event.heartStart,
               Event.socketCreate "pub"]) := by
        simp [complete_registration, hs, hpc]
      rw [hcr] at h ⊢
      rw [startKernel_error_none _ _ h]
      have hall' : st.trace.all isProvisionEvent = true := by
        rw [htr]; exact hall
      refine ⟨st.trace, by simp [List.append_assoc], hall', fun hmem => ?_⟩
      have hpe := List.all_eq_true.mp hall' _ hmem
      simp [isProvisionEvent] at hpe

/-- C5 witness: a concrete successful registration with all three channel
addresses present and a two-address heartbeat configuration. -/
theorem C5_witness :
    ∃ pre, (complete_registration (fun _ => false) "engine-5" initEngine
        (Except.ok ⟨"ok", "3", some "qa", some "ca", some "ta", ["h1", "h2"]⟩)).trace =
        pre ++ [Event.heartCreate ["h1", "h2"] "engine-5", Event.heartStart,
                Event.socketCreate "pub", Event.kernelCreate,
                Event.kernelStart] ∧
      pre.all isProvisionEvent = true ∧
      Event.heartStart ∉ pre :=
  C5_heart_after_provisioning_kernel_last (fun _ => false) "engine-5"
    initEngine ⟨"ok", "3", some "qa", some "ca", some "ta", ["h1", "h2"]⟩
    (by decide)

end EngineProof
